import Mathlib

/-
Verification of the duty-report exporter (reports_exporter.py, utils/time.py,
schemas.py).  The Python program is shallowly embedded: dict records become
structures holding exactly the fields the code reads, Python exceptions become
an explicit error type threaded through `Except`, and the dynamic typing of
the identifier fields that the code compares (`vehicle_event_sequence` is a
string in VEHICLES_SCHEMA but an integer in DUTIES_SCHEMA) is modelled by a
small value type distinguishing str and int, with Python's cross-type
`==` (False) and `<` (TypeError) semantics.
-/

deriving instance DecidableEq for Except

namespace BusReports

/-- Python exception kinds that the exporter's control flow distinguishes.
Only KeyError is caught by the per-duty handlers in the report generators;
jsonschema.ValidationError is logged and re-raised by _validate_json_data
before any duty processing. -/
inductive PyErr where
  | keyError (msg : String) : PyErr
  | indexError : PyErr
  | typeError : PyErr
  | valueError : PyErr
  | validationError : PyErr
deriving DecidableEq

/-- Python values appearing in the identifier fields the exporter compares:
the sequence label of a vehicle event is a string per VEHICLES_SCHEMA,
while the duty event's `vehicle_event_sequence` is an integer. -/
inductive PyVal where
  | pstr (s : String) : PyVal
  | pint (n : Int) : PyVal
deriving DecidableEq

/-- Python `str()` of an identifier value. -/
def PyVal.asPyStr : PyVal → String
  | .pstr s => s
  | .pint n => toString n

/-- Lexicographic comparison of character lists by code point, the order
Python uses on strings (and the order of Lean's `String`, proved below). -/
def charListLt : List Char → List Char → Bool
  | [], [] => false
  | [], _ :: _ => true
  | _ :: _, [] => false
  | a :: as, b :: bs =>
    if a < b then true
    else if b < a then false
    else charListLt as bs

/-- Python `a < b` on strings. -/
def pyStrLt (a b : String) : Bool :=
  charListLt a.data b.data

/-- Python `<` on identifier values: defined within one type (strings compare
lexicographically by code point), raising TypeError across types. -/
def pyLtVal : PyVal → PyVal → Except PyErr Bool
  | .pstr a, .pstr b => .ok (pyStrLt a b)
  | .pint a, .pint b => .ok (decide (a < b))
  | _, _ => .error .typeError

/-- Python `<` where the left side came from `dict.get` and may be None;
`None < x` raises TypeError. -/
def pyLtOpt : Option PyVal → PyVal → Except PyErr Bool
  | some a, b => pyLtVal a b
  | none, _ => .error .typeError

/-- Python list indexing `xs[i]`: negative indices count from the end,
anything out of range raises IndexError. -/
def pyIndex {α : Type} (xs : List α) (i : Int) : Except PyErr α :=
  let j : Int := if i < 0 then i + (xs.length : Int) else i
  if h : 0 ≤ j ∧ j.toNat < xs.length then .ok (xs.get ⟨j.toNat, h.2⟩)
  else .error .indexError

/-- Python `s.split(sep)` for a one-character separator, on the character
list: "a.b" → ["a","b"], "" → [""], ".." → ["","",""]. -/
def splitChars (sep : Char) : List Char → List (List Char)
  | [] => [[]]
  | c :: cs =>
    let r := splitChars sep cs
    if c = sep then [] :: r
    else
      match r with
      | h :: t => (c :: h) :: t
      | [] => [[c]]

/-- Python `s.split(sep)` for a one-character separator. -/
def pySplit (s : String) (sep : Char) : List String :=
  (splitChars sep s.data).map (fun cs => String.mk cs)

/-- Character-list version of `startsWith`. -/
def startsWithChars : List Char → List Char → Bool
  | [], _ => true
  | _ :: _, [] => false
  | a :: as, b :: bs => a == b && startsWithChars as bs

/-- Substring test on character lists, searching every suffix. -/
def containsChars (needle : List Char) : List Char → Bool
  | [] => startsWithChars needle []
  | b :: bs => startsWithChars needle (b :: bs) || containsChars needle bs

/-- Python `needle in haystack` on strings. -/
def pyContains (needle hay : String) : Bool :=
  containsChars needle.data hay.data

/-- Python `s.lower()`. -/
def pyLower (s : String) : String :=
  String.mk (s.data.map Char.toLower)

/-- Numeric value of a digit string. -/
def digitsToNat (cs : List Char) : Nat :=
  cs.foldl (fun a c => a * 10 + (c.toNat - 48)) 0

/-- Python `int(s)` on the day-offset components the program feeds it:
succeeds exactly on nonempty all-digit strings (a non-digit raises
ValueError, modelled as `none`). -/
def parseNatDigits (s : String) : Option Nat :=
  if s.data ≠ [] ∧ s.data.all Char.isDigit then some (digitsToNat s.data)
  else none

/-- The `%H:%M` part of `datetime.strptime(_, "%d.%H:%M")`: one or two digit
hour below 24 and one or two digit minute below 60, separated by a single
colon; anything else raises ValueError (modelled as `none`). -/
def parseHM (t : String) : Option (Nat × Nat) :=
  match splitChars ':' t.data with
  | [h, m] =>
    if h ≠ [] ∧ h.length ≤ 2 ∧ h.all Char.isDigit ∧
       m ≠ [] ∧ m.length ≤ 2 ∧ m.all Char.isDigit then
      if digitsToNat h ≤ 23 ∧ digitsToNat m ≤ 59 then
        some (digitsToNat h, digitsToNat m)
      else none
    else none
  | _ => none

/-- utils.day_offset_to_simple_time: `s.split(".")[1]`, where a missing day
separator turns the IndexError into ValueError. -/
def day_offset_to_simple_time (day_offset_time_sting : String) : Except PyErr String :=
  match (pySplit day_offset_time_sting '.').get? 1 with
  | some t => .ok t
  | none => .error .valueError

/-- utils.time.calculate_duration_in_minutes.  Each argument is split on "."
into a day count and a clock time; the day is passed through
`str(int(day) + 1)` and the pair re-parsed with
`datetime.strptime(_, "%d.%H:%M")`, so `day + 1` must land in the
`%d` range 1..31 — a day offset above 30 raises ValueError.  The result is
the signed minute difference. -/
def calculate_duration_in_minutes (start_time end_time : String) : Except PyErr Int :=
  match pySplit start_time '.' with
  | [sd, st] =>
    match pySplit end_time '.' with
    | [ed, et] =>
      match parseNatDigits sd with
      | none => .error .valueError
      | some sdn =>
        match parseNatDigits ed with
        | none => .error .valueError
        | some edn =>
          match (if sdn + 1 ≤ 31 then parseHM st else none) with
          | none => .error .valueError
          | some shm =>
            match (if edn + 1 ≤ 31 then parseHM et else none) with
            | none => .error .valueError
            | some ehm =>
              .ok (((edn : Int) * 1440 + (ehm.1 : Int) * 60 + (ehm.2 : Int)) -
                   ((sdn : Int) * 1440 + (shm.1 : Int) * 60 + (shm.2 : Int)))
    | _ => .error .valueError
  | _ => .error .valueError

/-- One stop record (STOPS_SCHEMA), restricted to the fields the engine reads. -/
structure Stop where
  stop_id : String
  stop_name : String
  is_depot : Bool
deriving DecidableEq

/-- One trip record (TRIPS_SCHEMA). -/
structure Trip where
  trip_id : String
  route_number : String
  departure_time : String
  arrival_time : String
  origin_stop_id : String
  destination_stop_id : String
deriving DecidableEq

/-- One vehicle event (VEHICLES_SCHEMA).  The record models the dict with all
fields the code may read made total; per the schema, non-service-trip events
carry the time/location fields and service-trip events carry `trip_id`.  The
sequence label is a `PyVal` because the schema types it as a string while the
code's doctests use integers, and the code compares it both through `str()`
and through raw `==`/`<`. -/
structure VehicleEvent where
  vehicle_event_sequence : PyVal
  vehicle_event_type : String
  start_time : String
  end_time : String
  origin_stop_id : String
  destination_stop_id : String
  trip_id : String
  duty_id : String
deriving DecidableEq

/-- One vehicle record. -/
structure Vehicle where
  vehicle_id : String
  vehicle_events : List VehicleEvent
deriving DecidableEq

/-- One duty event (DUTIES_SCHEMA): `vehicle_event` rows carry `vehicle_id`
and an integer `vehicle_event_sequence`; taxi/sign_on rows carry the explicit
time and stop fields. -/
structure DutyEvent where
  duty_event_sequence : String
  duty_event_type : String
  vehicle_id : String
  vehicle_event_sequence : Int
  start_time : String
  end_time : String
  origin_stop_id : String
  destination_stop_id : String
deriving DecidableEq

/-- One duty record. -/
structure Duty where
  duty_id : String
  duty_events : List DutyEvent
deriving DecidableEq

/-- The raw dataset dict with its four collections. -/
structure RawData where
  duties : List Duty
  vehicles : List Vehicle
  trips : List Trip
  stops : List Stop
deriving DecidableEq

/-- Loop of Python's `bisect_left(objects, id_, key=...)`, probing
`key(objects[mid])` against the target with Python `<`.  The fuel argument
only bounds the iteration count so the definition is structural; every call
passes fuel larger than `hi - lo`, which the loop never exhausts because
`hi - lo` shrinks on each step. -/
def bisectLoop (keys : List (Option PyVal)) (target : PyVal) :
    Nat → Nat → Nat → Except PyErr Nat
  | 0, lo, _ => .ok lo
  | fuel + 1, lo, hi =>
    if lo < hi then
      match pyLtOpt (keys.getD ((lo + hi) / 2) none) target with
      | .error e => .error e
      | .ok true => bisectLoop keys target fuel ((lo + hi) / 2 + 1) hi
      | .ok false => bisectLoop keys target fuel lo ((lo + hi) / 2)
    else .ok lo

/-- ReportsExporter._get_object_by_id.  When `is_objects_sorted` is false a
linear scan with Python `==` runs first; the source then falls through to the
binary search unconditionally when the scan finds nothing.  The binary search
compares via `<`, so mixed-type identifier data can raise TypeError.  Callers
that pass no hint resolve `is_objects_sorted` from `fields_to_sort_by_id`
(true exactly for duty_id/vehicle_id/trip_id/stop_id); that resolved value is
supplied at each call site here. -/
def getObjectById {α : Type} (objects : List α) (key : α → Option PyVal)
    (id_ : PyVal) (is_objects_sorted : Bool) (object_id_key : String) :
    Except PyErr α :=
  match (if is_objects_sorted then none
         else objects.find? (fun o => decide (key o = some id_))) with
  | some o => .ok o
  | none =>
    match bisectLoop (objects.map key) id_ (objects.length + 1) 0 objects.length with
    | .error e => .error e
    | .ok idx =>
      match objects.get? idx with
      | some o => if key o = some id_ then .ok o else .error (.keyError object_id_key)
      | none => .error (.keyError object_id_key)

/-- Stable insertion step used to model Python's stable sort: the new element
goes before the first existing element it is strictly below, hence after all
elements with an equal or smaller key. -/
def pyInsertBy {α : Type} (lt : α → α → Bool) (x : α) : List α → List α
  | [] => [x]
  | y :: ys => if lt x y then x :: y :: ys else y :: pyInsertBy lt x ys

/-- Model of Python's `sorted(xs, key=...)` / `list.sort(key=...)`: a stable
ascending sort; extensionally this is the unique stable sort by the key. -/
def pySortBy {α : Type} (lt : α → α → Bool) (xs : List α) : List α :=
  xs.foldl (fun acc x => pyInsertBy lt x acc) []

/-- Comparison by a string-valued key. -/
def ltKey {α : Type} (k : α → String) (a b : α) : Bool :=
  pyStrLt (k a) (k b)

/-- Stable ascending sort by a string-valued key. -/
def pySortByKey {α : Type} (k : α → String) (xs : List α) : List α :=
  pySortBy (ltKey k) xs

/-- ReportsExporter._sort_all_raw_data_list: each collection is sorted
in place ascending by its id field from `fields_to_sort_by_id`. -/
def sortAllRawData (raw : RawData) : RawData :=
  { duties := pySortByKey (fun d => d.duty_id) raw.duties
    vehicles := pySortByKey (fun v => v.vehicle_id) raw.vehicles
    trips := pySortByKey (fun t => t.trip_id) raw.trips
    stops := pySortByKey (fun s => s.stop_id) raw.stops }

/-- Whether a list of identifiers contains a repeated value. -/
def listHasDup : List String → Bool
  | [] => false
  | x :: xs => xs.contains x || listHasDup xs

/-- Whether an identifier value is a JSON string (schema "type": "string"). -/
def isPStr : PyVal → Bool
  | .pstr _ => true
  | .pint _ => false

/-- The tail `\d{2}(:\d{2})?` of DAY_OFFSET_TIME_TYPE_VALIDATION, matched
exactly to the end of the string. -/
def hhmmTail : List Char → Bool
  | [h1, h2] => h1.isDigit && h2.isDigit
  | [h1, h2, c, m1, m2] => h1.isDigit && h2.isDigit && (c == ':') && m1.isDigit && m2.isDigit
  | _ => false

/-- DAY_OFFSET_TIME_TYPE_VALIDATION's pattern `^\d{1,2}\.\d{2}(:\d{2})?$`:
one or two day digits, a dot, a two-digit hour, optionally a colon and a
two-digit minute.  (Digits are the ASCII digits of the data.)  Note the
pattern is laxer than what `strptime("%d.%H:%M")` later accepts: it allows
hours above 23, a missing ":MM" part, and day offsets above 30. -/
def matchesDayOffsetPattern (s : String) : Bool :=
  match s.data with
  | d1 :: '.' :: rest => d1.isDigit && hhmmTail rest
  | d1 :: d2 :: '.' :: rest => d1.isDigit && d2.isDigit && hhmmTail rest
  | _ => false

/-- The jsonschema constraints on one duty event beyond the record shape:
its oneOf branch is selected by the type tag (vehicle_event, or taxi/sign_on
with pattern-valid times); any other type tag matches no branch.  A
vehicle_event row's extra time fields are unconstrained (extra fields are
tolerated and its branch does not mention them). -/
def dutyEventSchemaOk (de : DutyEvent) : Bool :=
  if de.duty_event_type = "vehicle_event" then true
  else if de.duty_event_type = "taxi" ∨ de.duty_event_type = "sign_on" then
    matchesDayOffsetPattern de.start_time && matchesDayOffsetPattern de.end_time
  else false

/-- The jsonschema constraints on one vehicle event beyond the record shape:
both oneOf branches type `vehicle_event_sequence` as a string; the
non-service-trip branch additionally requires pattern-valid times; a type
tag outside the six enum values matches no branch. -/
def vehicleEventSchemaOk (ve : VehicleEvent) : Bool :=
  isPStr ve.vehicle_event_sequence &&
  (if ve.vehicle_event_type = "service_trip" then true
   else if ve.vehicle_event_type = "attendance" ∨ ve.vehicle_event_type = "deadhead" ∨
       ve.vehicle_event_type = "depot_pull_in" ∨ ve.vehicle_event_type = "depot_pull_out" ∨
       ve.vehicle_event_type = "pre_trip" then
     matchesDayOffsetPattern ve.start_time && matchesDayOffsetPattern ve.end_time
   else false)

/-- The jsonschema constraints on one trip beyond the record shape:
pattern-valid departure and arrival times. -/
def tripSchemaOk (t : Trip) : Bool :=
  matchesDayOffsetPattern t.departure_time && matchesDayOffsetPattern t.arrival_time

/-- validate(json_data, DRIVERS_SCHEDULE_SCHEMA): the constraints the record
types do not already carry — required fields and JSON type shapes are the
structures' fields, while the time-string pattern, the event-type enums of
the oneOf branches, and the string typing of vehicle-side sequence labels
are checked here.  Stops carry no constraints beyond shape. -/
def rawDataSchemaOk (raw : RawData) : Bool :=
  raw.duties.all (fun d => d.duty_events.all dutyEventSchemaOk) &&
  raw.vehicles.all (fun v => v.vehicle_events.all vehicleEventSchemaOk) &&
  raw.trips.all tripSchemaOk

/-- ReportsExporter._validate_json_data.  First the jsonschema pass
(`validate(json_data, DRIVERS_SCHEDULE_SCHEMA)`), whose ValidationError is
logged and re-raised — fatal before any duty processing.  Then the
duplicate-id pass: for any id with count > 1 the code builds
`set(items_with_same_id)` where the items are dicts, and Python raises
`TypeError: unhashable type: 'dict'` on the very first such set, before the
assert can compare anything.  So any repeated identifier in any collection,
even a byte-identical repeat, aborts with TypeError; the documented
AssertionError for distinct records is unreachable. -/
def validate_json_data (raw : RawData) : Except PyErr Unit :=
  if rawDataSchemaOk raw then
    if listHasDup (raw.duties.map (fun d => d.duty_id)) then .error .typeError
    else if listHasDup (raw.vehicles.map (fun v => v.vehicle_id)) then .error .typeError
    else if listHasDup (raw.trips.map (fun t => t.trip_id)) then .error .typeError
    else if listHasDup (raw.stops.map (fun s => s.stop_id)) then .error .typeError
    else .ok ()
  else .error .validationError

/-- ReportsExporter._get_vehicle_event_by_index: direct position access
(IndexError when out of range), then the consistency check
`str(vehicle_event["vehicle_event_sequence"]) != str(idx)`; on mismatch the
label-based `_get_object_by_id(..., is_objects_sorted=False)` result is
preferred (a warning is logged, which the model drops). -/
def get_vehicle_event_by_index (raw : RawData) (vehicle_id : String) (idx : Int) :
    Except PyErr VehicleEvent :=
  match getObjectById raw.vehicles (fun v => some (PyVal.pstr v.vehicle_id))
      (PyVal.pstr vehicle_id) true "vehicle_id" with
  | .error e => .error e
  | .ok vehicle =>
    match pyIndex vehicle.vehicle_events idx with
    | .error e => .error e
    | .ok vehicle_event =>
      if vehicle_event.vehicle_event_sequence.asPyStr ≠ toString idx then
        getObjectById vehicle.vehicle_events
          (fun e => some e.vehicle_event_sequence) (PyVal.pint idx) false
          "vehicle_event_sequence"
      else .ok vehicle_event

/-- ReportsExporter._get_duty_event_time: a non-vehicle event answers with its
own field; a vehicle event is dereferenced, and a service trip makes one more
hop to the trip's departure/arrival time.  The `start`/`end` choice is the
source's substring test on the lowered argument. -/
def get_duty_event_time (duty_event : DutyEvent) (raw : RawData)
    (start_or_end : String) : Except PyErr String :=
  let isStart := pyContains "start" (pyLower start_or_end)
  if duty_event.duty_event_type ≠ "vehicle_event" then
    .ok (if isStart then duty_event.start_time else duty_event.end_time)
  else
    match get_vehicle_event_by_index raw duty_event.vehicle_id
        duty_event.vehicle_event_sequence with
    | .error e => .error e
    | .ok ve =>
      if ve.vehicle_event_type ≠ "service_trip" then
        .ok (if isStart then ve.start_time else ve.end_time)
      else
        match getObjectById raw.trips (fun t => some (PyVal.pstr t.trip_id))
            (PyVal.pstr ve.trip_id) true "trip_id" with
        | .error e => .error e
        | .ok trip =>
          .ok (if isStart then trip.departure_time else trip.arrival_time)

/-- One output row of the start/end-times report. -/
structure Row1 where
  duty_id : String
  start_time : String
  end_time : String
deriving DecidableEq

/-- The body of the per-duty try block of
generate_duty_start_end_times_report: resolve the first event's start and the
last event's end, then strip the day offsets. -/
def processDuty (raw : RawData) (duty : Duty) : Except PyErr Row1 :=
  match pyIndex duty.duty_events 0 with
  | .error e => .error e
  | .ok e0 =>
    match get_duty_event_time e0 raw "start" with
    | .error e => .error e
    | .ok s =>
      match pyIndex duty.duty_events (-1) with
      | .error e => .error e
      | .ok eN =>
        match get_duty_event_time eN raw "end" with
        | .error e => .error e
        | .ok en =>
          match day_offset_to_simple_time s with
          | .error e => .error e
          | .ok ss =>
            match day_offset_to_simple_time en with
            | .error e => .error e
            | .ok es => .ok { duty_id := duty.duty_id, start_time := ss, end_time := es }

/-- The duty loop of generate_duty_start_end_times_report: only KeyError is
caught (the duty is skipped); any other exception escapes the loop. -/
def reportLoop (raw : RawData) : List Duty → List Row1 → Except PyErr (List Row1)
  | [], rows => .ok rows
  | d :: ds, rows =>
    match processDuty raw d with
    | .ok r => reportLoop raw ds (rows ++ [r])
    | .error (.keyError _) => reportLoop raw ds rows
    | .error e => .error e

/-- ReportsExporter.generate_duty_start_end_times_report: validate, sort all
collections in place, then run the per-duty loop. -/
def generate_duty_start_end_times_report (raw : RawData) : Except PyErr (List Row1) :=
  match validate_json_data raw with
  | .error e => .error e
  | .ok _ =>
    let raw2 := sortAllRawData raw
    reportLoop raw2 raw2.duties []

/-- Effectful map modelling a Python list comprehension: elements are
produced left to right and the first exception aborts the whole list. -/
def mapExcept {α β : Type} (f : α → Except PyErr β) : List α → Except PyErr (List β)
  | [] => .ok []
  | x :: xs =>
    match f x with
    | .error e => .error e
    | .ok y =>
      match mapExcept f xs with
      | .error e => .error e
      | .ok ys => .ok (y :: ys)

/-- A duty event after _populate_duty_events_with_details: the deep copy
augmented with resolved time/location fields and the is_break_type flag
(the fields later consumed by _calculate_breaks). -/
structure PopulatedEvent where
  duty_event_type : String
  start_time : String
  end_time : String
  origin_stop_id : String
  destination_stop_id : String
  is_break_type : Bool
deriving DecidableEq

/-- ReportsExporter._populate_duty_events_with_details: look up the duty, then
resolve each event.  Non-vehicle events keep their own fields and are
break-typed when their duty_event_type is configured; vehicle events take the
referenced vehicle event's fields (or, for a service trip, the referenced
trip's fields, never break-typed). -/
def populate_duty_events_with_details (raw : RawData) (duty_id : String)
    (explicit_break_event_types : List String) :
    Except PyErr (List PopulatedEvent) :=
  match getObjectById raw.duties (fun d => some (PyVal.pstr d.duty_id))
      (PyVal.pstr duty_id) true "duty_id" with
  | .error e => .error e
  | .ok duty =>
    mapExcept (fun de =>
      if de.duty_event_type ≠ "vehicle_event" then
        .ok { duty_event_type := de.duty_event_type
              start_time := de.start_time
              end_time := de.end_time
              origin_stop_id := de.origin_stop_id
              destination_stop_id := de.destination_stop_id
              is_break_type := explicit_break_event_types.contains de.duty_event_type }
      else
        match get_vehicle_event_by_index raw de.vehicle_id de.vehicle_event_sequence with
        | .error e => .error e
        | .ok ve =>
          if ve.vehicle_event_type ≠ "service_trip" then
            .ok { duty_event_type := de.duty_event_type
                  start_time := ve.start_time
                  end_time := ve.end_time
                  origin_stop_id := ve.origin_stop_id
                  destination_stop_id := ve.destination_stop_id
                  is_break_type := explicit_break_event_types.contains ve.vehicle_event_type }
          else
            match getObjectById raw.trips (fun t => some (PyVal.pstr t.trip_id))
                (PyVal.pstr ve.trip_id) true "trip_id" with
            | .error e => .error e
            | .ok trip =>
              .ok { duty_event_type := de.duty_event_type
                    start_time := trip.departure_time
                    end_time := trip.arrival_time
                    origin_stop_id := trip.origin_stop_id
                    destination_stop_id := trip.destination_stop_id
                    is_break_type := false }) duty.duty_events

/-- A raw break before the output transform:
(start_time, duration in minutes, location stop id). -/
abbrev RawBreak := String × Int × String

/-- A formatted break row: (display start time, duration, stop name). -/
abbrev BreakRow := String × Int × String

/-- The explicit-break comprehension of _calculate_breaks: one entry per
break-typed populated event. -/
def explicitBreaksOf (duty_events : List PopulatedEvent) :
    Except PyErr (List RawBreak) :=
  mapExcept (fun e =>
      match calculate_duration_in_minutes e.start_time e.end_time with
      | .error er => .error er
      | .ok d => .ok ((e.start_time, d, e.destination_stop_id) : RawBreak))
    (duty_events.filter (fun e => e.is_break_type))

/-- The implicit-break loop of _calculate_breaks: for each adjacent pair with
`prev.end_time != curr.start_time`, emit the gap from the previous event's
end, located at its destination stop. -/
def implicitBreaksOf : List PopulatedEvent → Except PyErr (List RawBreak)
  | p :: c :: rest =>
    if p.end_time ≠ c.start_time then
      match calculate_duration_in_minutes p.end_time c.start_time with
      | .error e => .error e
      | .ok d =>
        match implicitBreaksOf (c :: rest) with
        | .error e => .error e
        | .ok tl => .ok ((p.end_time, d, p.destination_stop_id) :: tl)
    else implicitBreaksOf (c :: rest)
  | _ => .ok []

/-- The inner _transform_raw_breaks of _calculate_breaks: keep the breaks of
at least the minimum duration, strip the day offset from the start time, and
resolve the stop id to its name (stop lookup is inferred sorted, hence a
binary search). -/
def transform_raw_breaks (raw : RawData) (min_duration_mins : Int)
    (raw_breaks : List RawBreak) : Except PyErr (List BreakRow) :=
  mapExcept (fun b =>
      match day_offset_to_simple_time b.1 with
      | .error e => .error e
      | .ok t =>
        match getObjectById raw.stops (fun s => some (PyVal.pstr s.stop_id))
            (PyVal.pstr b.2.2) true "stop_id" with
        | .error e => .error e
        | .ok stop => .ok ((t, b.2.1, stop.stop_name) : BreakRow))
    (raw_breaks.filter (fun b => decide (min_duration_mins ≤ b.2.1)))

/-- ReportsExporter._calculate_breaks: populate the duty's events, build the
explicit and implicit break lists, concatenate, sort by the start-time
string (Python's `sorted` with `key=lambda x: x[0]` — a lexicographic string
sort), and transform. -/
def calculate_breaks (raw : RawData) (duty_id : String) (min_duration_mins : Int)
    (explicit_break_event_types : List String) : Except PyErr (List BreakRow) :=
  match populate_duty_events_with_details raw duty_id explicit_break_event_types with
  | .error e => .error e
  | .ok duty_events =>
    match explicitBreaksOf duty_events with
    | .error e => .error e
    | .ok ex =>
      match implicitBreaksOf duty_events with
      | .error e => .error e
      | .ok im =>
        transform_raw_breaks raw min_duration_mins
          (pySortByKey (fun b => b.1) (ex ++ im))

/-- Total minute value of a day-offset time string, for the spec-side
chronological comparison (defaulting to 0 on a malformed string). -/
def dayOffsetTotalMinutes (s : String) : Int :=
  match pySplit s '.' with
  | [d, t] =>
    match parseNatDigits d, parseHM t with
    | some dv, some hm => (dv : Int) * 1440 + (hm.1 : Int) * 60 + (hm.2 : Int)
    | _, _ => 0
  | _ => 0

/-- Spec-side variant of _calculate_breaks, following the claim's words: the
merge is sorted ascending by chronological (minute-valued) comparison of the
break start times instead of by the raw strings.  Used only to compare the
claimed behaviour against the code's. -/
def claimed_breaks_chronological (raw : RawData) (duty_id : String)
    (min_duration_mins : Int) (explicit_break_event_types : List String) :
    Except PyErr (List BreakRow) :=
  match populate_duty_events_with_details raw duty_id explicit_break_event_types with
  | .error e => .error e
  | .ok duty_events =>
    match explicitBreaksOf duty_events with
    | .error e => .error e
    | .ok ex =>
      match implicitBreaksOf duty_events with
      | .error e => .error e
      | .ok im =>
        transform_raw_breaks raw min_duration_mins
          (pySortBy (fun a b =>
            decide (dayOffsetTotalMinutes a.1 < dayOffsetTotalMinutes b.1)) (ex ++ im))

/-- A pandas cell of the stop-description columns: a string, or the missing
value NaN.  The generator initialises the columns to the empty string, and
`dropna` removes only `na` cells. -/
inductive Cell where
  | str (s : String) : Cell
  | na : Cell
deriving DecidableEq

/-- Whether a cell is missing in the pandas sense. -/
def isNA : Cell → Bool
  | .na => true
  | .str _ => false

/-- One output row of the start/end-times-and-stops report. -/
structure Row2 where
  duty_id : String
  start_time : String
  end_time : String
  start_stop_description : Cell
  end_stop_description : Cell
deriving DecidableEq

/-- Replace the element at a position, when present. -/
def modifyAt {α : Type} (i : Nat) (f : α → α) : List α → List α
  | [] => []
  | x :: xs =>
    match i with
    | 0 => f x :: xs
    | j + 1 => x :: modifyAt j f xs

/-- Python's more_itertools.unique_everseen on strings: deduplicate keeping
first occurrences in order. -/
def unique_everseen (xs : List String) : List String :=
  xs.foldl (fun acc x => if acc.contains x then acc else acc ++ [x]) []

/-- ReportsExporter._get_relevant_service_trips: for each vehicle, the trip
ids of its service-trip events assigned to this duty, in order. -/
def get_relevant_service_trips (raw : RawData) (duty_id : String)
    (duty_vehicle_ids : List String) : Except PyErr (List String) :=
  duty_vehicle_ids.foldlM (fun acc vid =>
    match getObjectById raw.vehicles (fun v => some (PyVal.pstr v.vehicle_id))
        (PyVal.pstr vid) true "vehicle_id" with
    | .error e => .error e
    | .ok vehicle =>
      .ok (acc ++ ((vehicle.vehicle_events.filter (fun e =>
          e.vehicle_event_type == "service_trip" && e.duty_id == duty_id)).map
        (fun e => e.trip_id)))) []

/-- ReportsExporter._get_stop_name_from_trip_id: pick origin or destination
by the substring test, then trip lookup, then stop lookup. -/
def get_stop_name_from_trip_id (raw : RawData) (trip_id : String)
    (origin_or_destination : String) : Except PyErr String :=
  let useOrigin := pyContains "origin" (pyLower origin_or_destination)
  match getObjectById raw.trips (fun t => some (PyVal.pstr t.trip_id))
      (PyVal.pstr trip_id) true "trip_id" with
  | .error e => .error e
  | .ok trip =>
    match getObjectById raw.stops (fun s => some (PyVal.pstr s.stop_id))
        (PyVal.pstr (if useOrigin then trip.origin_stop_id
                     else trip.destination_stop_id)) true "stop_id" with
    | .error e => .error e
    | .ok stop => .ok stop.stop_name

/-- ReportsExporter._process_duty_start_and_end_stops.  The DataFrame is
mutated in place, so the result carries the table after whatever assignments
happened before a possible exception, alongside that exception.  A duty with
no service trips returns the table untouched (only a warning is logged). -/
def process_duty_start_and_end_stops (raw : RawData) (duty_id : String)
    (row_idx : Nat) (report : List Row2) : List Row2 × Option PyErr :=
  match getObjectById raw.duties (fun d => some (PyVal.pstr d.duty_id))
      (PyVal.pstr duty_id) true "duty_id" with
  | .error e => (report, some e)
  | .ok duty =>
    let duty_vehicle_ids := unique_everseen
      ((duty.duty_events.filter (fun e => e.duty_event_type == "vehicle_event")).map
        (fun e => e.vehicle_id))
    match get_relevant_service_trips raw duty_id duty_vehicle_ids with
    | .error e => (report, some e)
    | .ok service_trip_ids =>
      if service_trip_ids.isEmpty then (report, none)
      else
        match pyIndex service_trip_ids 0 with
        | .error e => (report, some e)
        | .ok t0 =>
          match get_stop_name_from_trip_id raw t0 "origin_stop_id" with
          | .error e => (report, some e)
          | .ok sname =>
            let report1 := modifyAt row_idx
              (fun r => { r with start_stop_description := Cell.str sname }) report
            match pyIndex service_trip_ids (-1) with
            | .error e => (report1, some e)
            | .ok tN =>
              match get_stop_name_from_trip_id raw tN "destination_stop_id" with
              | .error e => (report1, some e)
              | .ok ename =>
                (modifyAt row_idx
                  (fun r => { r with end_stop_description := Cell.str ename }) report1,
                 none)

/-- The row loop of generate_duty_start_end_times_and_stops_report: per row,
KeyError is caught and the (possibly partially updated) table is kept; any
other exception escapes. -/
def stopsLoop (raw : RawData) :
    List (Nat × String) → List Row2 → Except PyErr (List Row2)
  | [], table => .ok table
  | (i, did) :: rest, table =>
    match process_duty_start_and_end_stops raw did i table with
    | (table2, none) => stopsLoop raw rest table2
    | (table2, some (.keyError _)) => stopsLoop raw rest table2
    | (_, some e) => .error e

/-- ReportsExporter.generate_duty_start_end_times_and_stops_report: build the
step-1 report (which also sorted the raw data in place), add the two
description columns initialised to the empty string, fill them per duty, and
finish with `dropna` on those columns — which removes only `na` cells, and
the cells here are always strings. -/
def generate_duty_start_end_times_and_stops_report (raw : RawData) :
    Except PyErr (List Row2) :=
  match generate_duty_start_end_times_report raw with
  | .error e => .error e
  | .ok rows =>
    let raw2 := sortAllRawData raw
    let table := rows.map (fun r =>
      { duty_id := r.duty_id, start_time := r.start_time, end_time := r.end_time
        start_stop_description := Cell.str "", end_stop_description := Cell.str ""
        : Row2 })
    match stopsLoop raw2 ((rows.map (fun r => r.duty_id)).enum) table with
    | .error e => .error e
    | .ok t2 =>
      .ok (t2.filter (fun r =>
        !(isNA r.start_stop_description || isNA r.end_stop_description)))

/-- One output row of the breaks report: the duty's step-2 columns plus the
break's start time, duration and stop name. -/
structure Row3 where
  duty_id : String
  start_time : String
  end_time : String
  start_stop_description : Cell
  end_stop_description : Cell
  break_start_time : String
  break_duration : Int
  break_stop_name : String
deriving DecidableEq

/-- The `new_row` construction of generate_duty_breaks_report: a copy of the
duty's step-2 row with the break columns filled in. -/
def breakRowOf (r : Row2) (b : BreakRow) : Row3 :=
  { duty_id := r.duty_id, start_time := r.start_time, end_time := r.end_time
    start_stop_description := r.start_stop_description
    end_stop_description := r.end_stop_description
    break_start_time := b.1, break_duration := b.2.1, break_stop_name := b.2.2 }

/-- The duty loop of generate_duty_breaks_report: per duty, _calculate_breaks
is called with only KeyError caught (the duty then contributes no rows);
any other exception escapes the loop. -/
def breaksLoop (raw : RawData) (min_duration_mins : Int)
    (explicit_break_event_types : List String) :
    List Row2 → List Row3 → Except PyErr (List Row3)
  | [], acc => .ok acc
  | r :: rest, acc =>
    match calculate_breaks raw r.duty_id min_duration_mins
        explicit_break_event_types with
    | .ok bs => breaksLoop raw min_duration_mins explicit_break_event_types rest
        (acc ++ bs.map (breakRowOf r))
    | .error (.keyError _) =>
      breaksLoop raw min_duration_mins explicit_break_event_types rest acc
    | .error e => .error e

/-- ReportsExporter.generate_duty_breaks_report: build the step-2 report
(the raw data is sorted in place along the way), then one row per surviving
break of each duty. -/
def generate_duty_breaks_report (raw : RawData) (min_duration_mins : Int)
    (explicit_break_event_types : List String) : Except PyErr (List Row3) :=
  match generate_duty_start_end_times_and_stops_report raw with
  | .error e => .error e
  | .ok rows2 =>
    breaksLoop (sortAllRawData raw) min_duration_mins explicit_break_event_types
      rows2 []

/-- A sign_on duty event with the given times (schema-complete fields). -/
def mkSignOn (st en : String) : DutyEvent :=
  { duty_event_sequence := "0", duty_event_type := "sign_on", vehicle_id := ""
    vehicle_event_sequence := 0, start_time := st, end_time := en
    origin_stop_id := "s1", destination_stop_id := "s1" }

/-- A taxi duty event with the given times and stops. -/
def mkTaxi (st en o d : String) : DutyEvent :=
  { duty_event_sequence := "0", duty_event_type := "taxi", vehicle_id := ""
    vehicle_event_sequence := 0, start_time := st, end_time := en
    origin_stop_id := o, destination_stop_id := d }

/-- A vehicle_event duty event referencing a vehicle and a sequence index. -/
def mkVehicleRef (vid : String) (seqIdx : Int) : DutyEvent :=
  { duty_event_sequence := "0", duty_event_type := "vehicle_event"
    vehicle_id := vid, vehicle_event_sequence := seqIdx
    start_time := "", end_time := "", origin_stop_id := "", destination_stop_id := "" }

/-- A non-service-trip vehicle event with the given sequence label. -/
def mkAttendance (lbl : PyVal) (st en : String) : VehicleEvent :=
  { vehicle_event_sequence := lbl, vehicle_event_type := "attendance"
    start_time := st, end_time := en, origin_stop_id := "s1"
    destination_stop_id := "s2", trip_id := "", duty_id := "1" }

/-- A service-trip vehicle event referencing a trip. -/
def mkServiceTrip (lbl : PyVal) (tid did : String) : VehicleEvent :=
  { vehicle_event_sequence := lbl, vehicle_event_type := "service_trip"
    start_time := "", end_time := "", origin_stop_id := "", destination_stop_id := ""
    trip_id := tid, duty_id := did }

/-- Dataset whose single vehicle stores integer sequence labels out of
positional order: position 0 holds label 1 and position 1 holds label 0. -/
def rawIntLabelsSwapped : RawData :=
  { duties := [], trips := [], stops := []
    vehicles := [{ vehicle_id := "v1"
                   vehicle_events := [mkAttendance (PyVal.pint 1) "0.10:00" "0.11:00",
                                      mkAttendance (PyVal.pint 0) "0.08:00" "0.09:00"] }] }

/-- Dataset whose single vehicle stores schema-typed (string) sequence labels
out of positional order, as VEHICLES_SCHEMA prescribes ("vehicle_event_sequence"
of type string), while the duty-side index is an integer. -/
def rawStrLabelsSwapped : RawData :=
  { duties := [], trips := [], stops := []
    vehicles := [{ vehicle_id := "v1"
                   vehicle_events := [mkAttendance (PyVal.pstr "1") "0.10:00" "0.11:00",
                                      mkAttendance (PyVal.pstr "0") "0.08:00" "0.09:00"] }] }

/-- Dataset with one duty producing two explicit taxi breaks whose day
offsets have different digit widths (day 10 and day 9), so lexicographic
and chronological orderings of the start-time strings disagree. -/
def rawMixedDays : RawData :=
  { duties := [{ duty_id := "1"
                 duty_events := [mkTaxi "10.00:00" "10.01:00" "s10" "s10",
                                 mkTaxi "9.00:00" "9.01:00" "s9" "s9"] }]
    vehicles := [], trips := []
    stops := [{ stop_id := "s10", stop_name := "Stop Ten", is_depot := false },
              { stop_id := "s9", stop_name := "Stop Nine", is_depot := false }] }

/-- A populated event ending at 10:00 at stop sB. -/
def gapPrevEvent : PopulatedEvent :=
  { duty_event_type := "attendance", start_time := "0.08:00", end_time := "0.10:00"
    origin_stop_id := "sA", destination_stop_id := "sB", is_break_type := false }

/-- A populated event starting 20 minutes after `gapPrevEvent` ends. -/
def gapCurrEvent : PopulatedEvent :=
  { duty_event_type := "attendance", start_time := "0.10:20", end_time := "0.11:00"
    origin_stop_id := "sB", destination_stop_id := "sC", is_break_type := false }

/-- A populated event starting exactly when `gapPrevEvent` ends. -/
def flushCurrEvent : PopulatedEvent :=
  { duty_event_type := "attendance", start_time := "0.10:00", end_time := "0.11:00"
    origin_stop_id := "sB", destination_stop_id := "sC", is_break_type := false }

/-- Dataset for time resolution: a vehicle whose event 0 is a service trip
referencing trip t1. -/
def rawServiceTrip : RawData :=
  { duties := [], stops := []
    vehicles := [{ vehicle_id := "v1"
                   vehicle_events := [mkServiceTrip (PyVal.pint 0) "t1" "1"] }]
    trips := [{ trip_id := "t1", route_number := "7", departure_time := "0.08:30"
                arrival_time := "0.09:00", origin_stop_id := "s1"
                destination_stop_id := "s2" }] }

/-- Dataset with duty 1 holding a sign_on whose start time has no day
separator, and a fully valid duty 2. -/
def rawMalformedTime : RawData :=
  { duties := [{ duty_id := "1", duty_events := [mkSignOn "1030" "0.11:00"] },
               { duty_id := "2", duty_events := [mkSignOn "0.08:00" "0.09:00"] }]
    vehicles := [], trips := [], stops := [] }

/-- Dataset with duty 1 referencing a vehicle id that does not exist, and a
fully valid duty 2. -/
def rawMissingVehicle : RawData :=
  { duties := [{ duty_id := "1", duty_events := [mkVehicleRef "ghost" 0] },
               { duty_id := "2", duty_events := [mkSignOn "0.08:00" "0.09:00"] }]
    vehicles := [], trips := [], stops := [] }

/-- Dataset with duty 1 referencing sequence index 5 of a vehicle that has a
single, schema-conformant event (string label "0", pattern-valid times), and
a fully valid duty 2.  The whole dataset validates against
DRIVERS_SCHEDULE_SCHEMA. -/
def rawOutOfRangeIndex : RawData :=
  { duties := [{ duty_id := "1", duty_events := [mkVehicleRef "v1" 5] },
               { duty_id := "2", duty_events := [mkSignOn "0.08:00" "0.09:00"] }]
    vehicles := [{ vehicle_id := "v1"
                   vehicle_events := [mkAttendance (PyVal.pstr "0") "0.08:00" "0.09:00"] }]
    trips := [], stops := [] }

/-- Dataset whose duty 1 carries the sign_on end time "0.99:00" — valid for
the schema pattern `^\d{1,2}\.\d{2}(:\d{2})?$` but rejected by
`strptime("%d.%H:%M")` (hour above 23) — and a fully valid duty 2, with the
stop both sign_on events name. -/
def rawUnparseableBreak : RawData :=
  { duties := [{ duty_id := "1", duty_events := [mkSignOn "0.08:00" "0.99:00"] },
               { duty_id := "2", duty_events := [mkSignOn "0.08:00" "0.09:00"] }]
    vehicles := [], trips := []
    stops := [{ stop_id := "s1", stop_name := "Stop One", is_depot := false }] }

/-- Dataset whose duties collection repeats one record byte-identically. -/
def rawDuplicateDuty : RawData :=
  { duties := [{ duty_id := "1", duty_events := [mkSignOn "0.08:00" "0.09:00"] },
               { duty_id := "1", duty_events := [mkSignOn "0.08:00" "0.09:00"] }]
    vehicles := [], trips := [], stops := [] }

/-- Dataset with a single duty that has no service trips at all. -/
def rawNoServiceTrips : RawData :=
  { duties := [{ duty_id := "1", duty_events := [mkSignOn "0.08:00" "0.08:30"] }]
    vehicles := [], trips := [], stops := [] }

/-- Dataset with duty 1 holding an empty duty_events list, and a fully valid
duty 2. -/
def rawEmptyDuty : RawData :=
  { duties := [{ duty_id := "1", duty_events := [] },
               { duty_id := "2", duty_events := [mkSignOn "0.08:00" "0.09:00"] }]
    vehicles := [], trips := [], stops := [] }

/-- Adjacent pairs of a resolved timeline separated by an unaccounted gap
(prev.end_time differs from curr.start_time), in timeline order. -/
def gapPairs (evs : List PopulatedEvent) : List (PopulatedEvent × PopulatedEvent) :=
  (evs.zip evs.tail).filter (fun pc => decide (pc.1.end_time ≠ pc.2.start_time))

/-- The executable character comparison agrees with the lexicographic list
order on characters. -/
theorem charListLt_iff (as : List Char) : ∀ bs, charListLt as bs = true ↔ as < bs := by
  induction as with
  | nil =>
    intro bs
    cases bs with
    | nil =>
      apply iff_of_false (by simp [charListLt])
      intro h
      nomatch h
    | cons b bs =>
      apply iff_of_true (by simp [charListLt])
      exact List.Lex.nil
  | cons a as ih =>
    intro bs
    cases bs with
    | nil =>
      apply iff_of_false (by simp [charListLt])
      intro h
      nomatch h
    | cons b bs =>
      by_cases hab : a < b
      · apply iff_of_true (by simp [charListLt, hab])
        exact List.Lex.rel hab
      · by_cases hba : b < a
        · apply iff_of_false (by simp [charListLt, hab, hba])
          intro h
          cases h with
          | cons h3 => exact absurd hba (lt_irrefl a)
          | rel h1 => exact hab h1
        · have heq : a = b := le_antisymm (le_of_not_lt hba) (le_of_not_lt hab)
          subst heq
          have hred : charListLt (a :: as) (a :: bs) = charListLt as bs := by
            simp [charListLt, hab]
          rw [hred, ih bs]
          constructor
          · intro h
            exact List.Lex.cons h
          · intro h
            cases h with
            | cons h3 => exact h3
            | rel h1 => exact absurd h1 hab

/-- The executable string comparison agrees with the string order. -/
theorem pyStrLt_iff (a b : String) : pyStrLt a b = true ↔ a < b := by
  rw [pyStrLt, charListLt_iff]
  exact (String.lt_iff_toList_lt).symm

/-- Negative form of `pyStrLt_iff`. -/
theorem pyStrLt_eq_false_iff (a b : String) : pyStrLt a b = false ↔ ¬ a < b := by
  rw [← pyStrLt_iff]
  simp

/-- Inserting with `pyInsertBy` permutes consing. -/
theorem pyInsertBy_perm {α : Type} (lt : α → α → Bool) (x : α) (l : List α) :
    List.Perm (pyInsertBy lt x l) (x :: l) := by
  induction l with
  | nil => exact List.Perm.refl _
  | cons y ys ih =>
    simp only [pyInsertBy]
    by_cases h : lt x y
    · rw [if_pos h]
    · rw [if_neg h]
      exact (ih.cons y).trans (List.Perm.swap x y ys)

/-- The stable sort is a permutation of its input. -/
theorem pySortBy_perm {α : Type} (lt : α → α → Bool) (xs : List α) :
    List.Perm (pySortBy lt xs) xs := by
  have aux : ∀ (ys : List α) (acc : List α),
      List.Perm (ys.foldl (fun a x => pyInsertBy lt x a) acc) (ys ++ acc) := by
    intro ys
    induction ys with
    | nil => intro acc; exact List.Perm.refl _
    | cons y ys ih =>
      intro acc
      have h1 : List.Perm (ys.foldl (fun a x => pyInsertBy lt x a) (pyInsertBy lt y acc))
          (ys ++ pyInsertBy lt y acc) := ih _
      have h2 : List.Perm (ys ++ pyInsertBy lt y acc) (ys ++ (y :: acc)) :=
        List.Perm.append_left ys (pyInsertBy_perm lt y acc)
      have h3 : List.Perm (ys ++ (y :: acc)) (y :: (ys ++ acc)) := List.perm_middle
      exact (h1.trans h2).trans h3
  have h := aux xs []
  rw [List.append_nil] at h
  exact h

/-- Membership in an insertion. -/
theorem mem_pyInsertBy {α : Type} (lt : α → α → Bool) (x z : α) (l : List α) :
    z ∈ pyInsertBy lt x l ↔ z = x ∨ z ∈ l := by
  rw [(pyInsertBy_perm lt x l).mem_iff]
  simp

/-- Inserting preserves ascending order by the key. -/
theorem pyInsertBy_pairwise {α : Type} (k : α → String) (x : α) (l : List α)
    (hl : l.Pairwise (fun a b => ¬ k b < k a)) :
    (pyInsertBy (ltKey k) x l).Pairwise (fun a b => ¬ k b < k a) := by
  induction l with
  | nil => simp [pyInsertBy]
  | cons y ys ih =>
    rcases List.pairwise_cons.mp hl with ⟨hy, hys⟩
    simp only [pyInsertBy]
    by_cases h : k x < k y
    · rw [if_pos (by rw [ltKey, pyStrLt_iff]; exact h)]
      refine List.pairwise_cons.mpr ⟨?_, hl⟩
      intro z hz
      rcases List.mem_cons.mp hz with hzy | hzys
      · subst hzy; exact lt_asymm h
      · intro hzx
        exact hy z hzys (lt_trans hzx h)
    · rw [if_neg (by rw [ltKey]; rw [Bool.not_eq_true, pyStrLt_eq_false_iff]; exact h)]
      refine List.pairwise_cons.mpr ⟨?_, ih hys⟩
      intro z hz
      rcases (mem_pyInsertBy (ltKey k) x z ys).mp hz with hzx | hzys
      · subst hzx; exact h
      · exact hy z hzys

/-- The stable sort is ascending by the key (ties allowed). -/
theorem pySortByKey_pairwise {α : Type} (k : α → String) (xs : List α) :
    (pySortByKey k xs).Pairwise (fun a b => ¬ k b < k a) := by
  have aux : ∀ (ys acc : List α), acc.Pairwise (fun a b => ¬ k b < k a) →
      (ys.foldl (fun a x => pyInsertBy (ltKey k) x a) acc).Pairwise
        (fun a b => ¬ k b < k a) := by
    intro ys
    induction ys with
    | nil => intro acc h; exact h
    | cons y ys ih =>
      intro acc h
      exact ih _ (pyInsertBy_pairwise k y acc h)
  exact aux xs [] (by simp)

/-- Inserting an element with a different key leaves the key's fiber of the
list unchanged. -/
theorem pyInsertBy_filter_ne {α : Type} (k : α → String) (x : α) (l : List α)
    (s : String) (hx : k x ≠ s) :
    (pyInsertBy (ltKey k) x l).filter (fun a => k a == s) =
      l.filter (fun a => k a == s) := by
  have hxb : (k x == s) = false := by simp [hx]
  induction l with
  | nil => simp [pyInsertBy, List.filter_cons, hxb]
  | cons y ys ih =>
    simp only [pyInsertBy]
    by_cases h : ltKey k x y = true
    · rw [if_pos h]
      simp [List.filter_cons, hxb]
    · rw [if_neg h]
      simp [List.filter_cons, ih]

/-- Inserting an element into a sorted list appends it to its key's fiber. -/
theorem pyInsertBy_filter_eq {α : Type} (k : α → String) (x : α) (s : String)
    (hx : k x = s) : ∀ (l : List α), l.Pairwise (fun a b => ¬ k b < k a) →
    (pyInsertBy (ltKey k) x l).filter (fun a => k a == s) =
      l.filter (fun a => k a == s) ++ [x] := by
  have hxb : (k x == s) = true := by simp [hx]
  intro l
  induction l with
  | nil =>
    intro _
    simp [pyInsertBy, List.filter_cons, hxb]
  | cons y ys ih =>
    intro hl
    rcases List.pairwise_cons.mp hl with ⟨hy, hys⟩
    simp only [pyInsertBy]
    by_cases h : k x < k y
    · rw [if_pos (by rw [ltKey, pyStrLt_iff]; exact h)]
      have hempty : (y :: ys).filter (fun a => k a == s) = [] := by
        rw [List.filter_eq_nil_iff]
        intro z hz
        simp only [beq_iff_eq]
        intro hzs
        rcases List.mem_cons.mp hz with hzy | hzys
        · subst hzy
          rw [← hx] at hzs
          exact absurd h (by rw [hzs]; exact lt_irrefl _)
        · exact hy z hzys (by rw [hzs, ← hx]; exact h)
      simp [List.filter_cons, hxb, hempty]
    · rw [if_neg (by rw [ltKey]; rw [Bool.not_eq_true, pyStrLt_eq_false_iff]; exact h)]
      by_cases hky : (k y == s) = true
      · simp [List.filter_cons, hky, ih hys]
      · simp [List.filter_cons, hky, ih hys]

/-- Stability of the sort: each key's fiber keeps its original order. -/
theorem pySortByKey_filter {α : Type} (k : α → String) (xs : List α) (s : String) :
    (pySortByKey k xs).filter (fun a => k a == s) =
      xs.filter (fun a => k a == s) := by
  have aux : ∀ (ys acc : List α), acc.Pairwise (fun a b => ¬ k b < k a) →
      (ys.foldl (fun a x => pyInsertBy (ltKey k) x a) acc).filter (fun a => k a == s) =
        acc.filter (fun a => k a == s) ++ ys.filter (fun a => k a == s) := by
    intro ys
    induction ys with
    | nil => intro acc _; simp
    | cons y ys ih =>
      intro acc hacc
      have step := ih (pyInsertBy (ltKey k) y acc) (pyInsertBy_pairwise k y acc hacc)
      calc ((y :: ys).foldl (fun a x => pyInsertBy (ltKey k) x a) acc).filter
              (fun a => k a == s)
          = (ys.foldl (fun a x => pyInsertBy (ltKey k) x a)
              (pyInsertBy (ltKey k) y acc)).filter (fun a => k a == s) := rfl
        _ = (pyInsertBy (ltKey k) y acc).filter (fun a => k a == s) ++
              ys.filter (fun a => k a == s) := step
        _ = acc.filter (fun a => k a == s) ++ (y :: ys).filter (fun a => k a == s) := by
            by_cases hy : k y = s
            · have hyb : (k y == s) = true := by simp [hy]
              rw [pyInsertBy_filter_eq k y s hy acc hacc]
              simp [List.filter_cons, hyb]
            · have hyb : (k y == s) = false := by simp [hy]
              rw [pyInsertBy_filter_ne k y acc s hy]
              simp [List.filter_cons, hyb]
  have := aux xs [] (by simp)
  simpa [pySortByKey, pySortBy] using this

/-- Successful `mapExcept` relates input and output pointwise. -/
theorem mapExcept_ok_forall₂ {α β : Type} (f : α → Except PyErr β) :
    ∀ (xs : List α) (ys : List β), mapExcept f xs = .ok ys →
      List.Forall₂ (fun x y => f x = .ok y) xs ys := by
  intro xs
  induction xs with
  | nil =>
    intro ys h
    simp only [mapExcept] at h
    cases h
    exact List.Forall₂.nil
  | cons x xs ih =>
    intro ys h
    simp only [mapExcept] at h
    cases hfx : f x with
    | error e => rw [hfx] at h; cases h
    | ok y =>
      rw [hfx] at h
      cases hms : mapExcept f xs with
      | error e => rw [hms] at h; cases h
      | ok ys2 =>
        rw [hms] at h
        cases h
        exact List.Forall₂.cons hfx (ih ys2 hms)

/-- Every output of a successful `mapExcept` comes from some input. -/
theorem mapExcept_ok_mem {α β : Type} (f : α → Except PyErr β) :
    ∀ (xs : List α) (ys : List β), mapExcept f xs = .ok ys →
      ∀ b ∈ ys, ∃ x ∈ xs, f x = .ok b := by
  intro xs
  induction xs with
  | nil =>
    intro ys h b hb
    simp only [mapExcept] at h
    cases h
    cases hb
  | cons x xs ih =>
    intro ys h b hb
    simp only [mapExcept] at h
    cases hfx : f x with
    | error e => rw [hfx] at h; cases h
    | ok y =>
      rw [hfx] at h
      cases hms : mapExcept f xs with
      | error e => rw [hms] at h; cases h
      | ok ys2 =>
        rw [hms] at h
        cases h
        rcases List.mem_cons.mp hb with hby | hbys
        · exact ⟨x, List.mem_cons_self x xs, by rw [hfx, hby]⟩
        · rcases ih ys2 hms b hbys with ⟨x2, hx2, hfx2⟩
          exact ⟨x2, List.mem_cons_of_mem x hx2, hfx2⟩

/-- When every probed key is a string and the target is a string, the
bisect loop never raises: string/string comparisons are defined. -/
theorem bisectLoop_str_ok (keys : List (Option PyVal)) (t : String)
    (hkeys : ∀ k ∈ keys, ∃ s, k = some (PyVal.pstr s)) :
    ∀ (fuel lo hi : Nat), hi ≤ keys.length →
      ∃ n, bisectLoop keys (PyVal.pstr t) fuel lo hi = .ok n := by
  intro fuel
  induction fuel with
  | zero =>
    intro lo hi _
    exact ⟨lo, rfl⟩
  | succ fuel ih =>
    intro lo hi hle
    by_cases hlh : lo < hi
    · have hmid : (lo + hi) / 2 < keys.length := lt_of_lt_of_le (by omega) hle
      have hget : keys.getD ((lo + hi) / 2) none =
          keys.get ⟨(lo + hi) / 2, hmid⟩ := by
        simp [List.getD_eq_getElem?_getD, List.getElem?_eq_getElem hmid]
      rcases hkeys _ (List.get_mem keys _ hmid) with ⟨s, hs⟩
      simp only [bisectLoop, if_pos hlh, hget, hs, pyLtOpt, pyLtVal]
      cases pyStrLt s t with
      | true => exact ih ((lo + hi) / 2 + 1) hi hle
      | false => exact ih lo ((lo + hi) / 2) (le_of_lt hmid)
    · exact ⟨lo, by simp [bisectLoop, if_neg hlh]⟩

/-- A sorted-mode lookup whose target id matches no record raises KeyError,
provided all keys are strings (so the binary search cannot raise TypeError). -/
theorem getObjectById_str_missing {α : Type} (objects : List α)
    (key : α → Option PyVal) (t name : String)
    (hkeys : ∀ o ∈ objects, ∃ s, key o = some (PyVal.pstr s))
    (hmiss : ∀ o ∈ objects, key o ≠ some (PyVal.pstr t)) :
    getObjectById objects key (PyVal.pstr t) true name =
      .error (.keyError name) := by
  have hk2 : ∀ k ∈ objects.map key, ∃ s, k = some (PyVal.pstr s) := by
    intro k hk
    rcases List.mem_map.mp hk with ⟨o, ho, rfl⟩
    exact hkeys o ho
  rcases bisectLoop_str_ok (objects.map key) t hk2 (objects.length + 1) 0
      objects.length (by simp) with ⟨n, hn⟩
  have hred : getObjectById objects key (PyVal.pstr t) true name =
      (match bisectLoop (objects.map key) (PyVal.pstr t)
          (objects.length + 1) 0 objects.length with
       | .error e => .error e
       | .ok idx =>
         match objects.get? idx with
         | some o => if key o = some (PyVal.pstr t) then .ok o
                     else .error (.keyError name)
         | none => .error (.keyError name)) := rfl
  rw [hred, hn]
  show (match objects.get? n with
        | some o => if key o = some (PyVal.pstr t) then Except.ok o
                    else Except.error (PyErr.keyError name)
        | none => Except.error (PyErr.keyError name)) =
      Except.error (PyErr.keyError name)
  cases hg : objects.get? n with
  | none => rfl
  | some o =>
    have ho : o ∈ objects := List.get?_mem hg
    show (if key o = some (PyVal.pstr t) then Except.ok o
          else Except.error (PyErr.keyError name)) =
        Except.error (PyErr.keyError name)
    rw [if_neg (hmiss o ho)]

/-- Indexing a nonempty list at 0 yields its head. -/
theorem pyIndex_cons_zero {α : Type} (x : α) (xs : List α) :
    pyIndex (x :: xs) 0 = .ok x := by
  simp [pyIndex]

/-- Indexing a singleton at -1 yields its element. -/
theorem pyIndex_single_neg_one {α : Type} (x : α) :
    pyIndex [x] (-1) = .ok x := by
  simp [pyIndex]

/-- Indexing the empty list raises IndexError. -/
theorem pyIndex_nil {α : Type} (i : Int) :
    pyIndex ([] : List α) i = .error .indexError := by
  simp [pyIndex]

/-- A non-vehicle duty event answers the time query from its own fields. -/
theorem get_duty_event_time_own (de : DutyEvent) (raw : RawData)
    (start_or_end : String) (h : de.duty_event_type ≠ "vehicle_event") :
    get_duty_event_time de raw start_or_end =
      .ok (if pyContains "start" (pyLower start_or_end) then de.start_time
           else de.end_time) := by
  simp only [get_duty_event_time]
  rw [if_pos h]

/-- The duty loop aborts with the first uncaught exception: duties before the
faulty one may succeed or be skipped on KeyError, and the faulty duty's
non-KeyError exception ends the whole loop. -/
theorem reportLoop_aborts (raw : RawData) :
    ∀ (pre : List Duty) (bad : Duty) (rest : List Duty) (rows : List Row1)
      (e : PyErr),
      (∀ d ∈ pre, (∃ r, processDuty raw d = .ok r) ∨
        (∃ s, processDuty raw d = .error (.keyError s))) →
      processDuty raw bad = .error e →
      (∀ s, e ≠ .keyError s) →
      reportLoop raw (pre ++ bad :: rest) rows = .error e := by
  intro pre
  induction pre with
  | nil =>
    intro bad rest rows e _ he hne
    simp only [List.nil_append, reportLoop]
    rw [he]
    cases e with
    | keyError s => exact absurd rfl (hne s)
    | indexError => rfl
    | typeError => rfl
    | valueError => rfl
    | validationError => rfl
  | cons d pre ih =>
    intro bad rest rows e hpre he hne
    have hd := hpre d (List.mem_cons_self d pre)
    have hpre2 : ∀ d2 ∈ pre, (∃ r, processDuty raw d2 = .ok r) ∨
        (∃ s, processDuty raw d2 = .error (.keyError s)) := by
      intro d2 hd2
      exact hpre d2 (List.mem_cons_of_mem d hd2)
    rcases hd with ⟨r, hr⟩ | ⟨s, hs⟩
    · simp only [List.cons_append, reportLoop]
      rw [hr]
      exact ih bad rest (rows ++ [r]) e hpre2 he hne
    · simp only [List.cons_append, reportLoop]
      rw [hs]
      exact ih bad rest rows e hpre2 he hne

/-- Every break surviving the output transform has at least the minimum
duration. -/
theorem transform_raw_breaks_min (raw : RawData) (m : Int) (rbs : List RawBreak)
    (bs : List BreakRow) (h : transform_raw_breaks raw m rbs = .ok bs) :
    ∀ b ∈ bs, m ≤ b.2.1 := by
  intro b hb
  simp only [transform_raw_breaks] at h
  rcases mapExcept_ok_mem _ _ _ h b hb with ⟨x, hx, hfx⟩
  have hmle : m ≤ x.2.1 := of_decide_eq_true (List.mem_filter.mp hx).2
  cases hday : day_offset_to_simple_time x.1 with
  | error e =>
    simp only [hday] at hfx
    exact Except.noConfusion hfx
  | ok t =>
    simp only [hday] at hfx
    cases hstop : getObjectById raw.stops (fun s => some (PyVal.pstr s.stop_id))
        (PyVal.pstr x.2.2) true "stop_id" with
    | error e =>
      simp only [hstop] at hfx
      exact Except.noConfusion hfx
    | ok stop =>
      simp only [hstop] at hfx
      cases hfx
      exact hmle

/-- C5 counterexample: "31.00:00" and "31.00:01" are well-formed day-offset
strings by the template (and by the schema pattern for times), yet the code
raises ValueError instead of returning the 1-minute difference, because
`strptime` with `%d` rejects day `31 + 1`. -/
theorem c5_counterexample :
    calculate_duration_in_minutes "31.00:00" "31.00:01" = .error .valueError ∧
    calculate_duration_in_minutes "31.00:00" "31.00:01" ≠ .ok 1 := by
  exact ⟨by decide, by decide⟩

/-- C5 (amended): for day-offset strings whose components parse, with day
offsets at most 30 (the bound the `%d.%H:%M`-strptime round trip imposes),
the duration is the difference of the absolute minute values
(de*1440 + he*60 + me) - (ds*1440 + hs*60 + ms). -/
theorem c5_duration_formula (s e sd st ed et : String) (dsv edv sh sm eh em : Nat)
    (hs : pySplit s '.' = [sd, st]) (hsd : parseNatDigits sd = some dsv)
    (hsdle : dsv ≤ 30) (hst : parseHM st = some (sh, sm))
    (he : pySplit e '.' = [ed, et]) (hed : parseNatDigits ed = some edv)
    (hedle : edv ≤ 30) (het : parseHM et = some (eh, em)) :
    calculate_duration_in_minutes s e =
      .ok (((edv : Int) * 1440 + (eh : Int) * 60 + (em : Int)) -
           ((dsv : Int) * 1440 + (sh : Int) * 60 + (sm : Int))) := by
  have h1 : dsv + 1 ≤ 31 := by omega
  have h2 : edv + 1 ≤ 31 := by omega
  simp only [calculate_duration_in_minutes, hs, he, hsd, hed, if_pos h1,
    if_pos h2, hst, het]

/-- C5 witness: the spec's two sample durations, via the amended theorem. -/
theorem c5_duration_formula_witness :
    calculate_duration_in_minutes "0.23:59" "1.00:00" = .ok 1 ∧
    calculate_duration_in_minutes "0.00:00" "1.23:59" = .ok 2879 := by
  constructor
  · have h := c5_duration_formula "0.23:59" "1.00:00" "0" "23:59" "1" "00:00"
      0 1 23 59 0 0 (by decide) (by decide) (by decide) (by decide)
      (by decide) (by decide) (by decide) (by decide)
    norm_num at h
    exact h
  · have h := c5_duration_formula "0.00:00" "1.23:59" "0" "00:00" "1" "23:59"
      0 1 0 0 23 59 (by decide) (by decide) (by decide) (by decide)
      (by decide) (by decide) (by decide) (by decide)
    norm_num at h
    exact h

/-- C8: evaluating validation at a dataset whose duties collection repeats
one record byte-identically: the code raises TypeError (Python `set` of
dicts is unhashable), where its own docstring and comment promise that
identical repeats are tolerated and only distinct records sharing an id
raise. -/
theorem c8_duplicate_validation_type_error :
    validate_json_data rawDuplicateDuty = .error .typeError := by
  decide

/-- C9: evaluating the location-aware report at a dataset whose only duty has
zero service trips: the duty's row is retained with empty-string stop
descriptions, because the columns are initialised to "" and `dropna` removes
only NaN cells — the claim (and the code's own comment choosing removal)
says the row is excluded. -/
theorem c9_zero_trips_row_retained :
    generate_duty_start_end_times_and_stops_report rawNoServiceTrips =
      .ok [{ duty_id := "1", start_time := "08:00", end_time := "08:30"
             start_stop_description := Cell.str ""
             end_stop_description := Cell.str "" }] := by
  decide

/-- C3: the implicit-break loop emits exactly one break per adjacent pair
with an unaccounted gap, in timeline order, carrying the previous event's end
time, the gap duration, and the previous event's destination stop; timelines
of zero or one events have no adjacent pair, hence no implicit break. -/
theorem c3_implicit_breaks_gap_pairs :
    ∀ (evs : List PopulatedEvent) (bs : List RawBreak),
      implicitBreaksOf evs = .ok bs →
      List.Forall₂ (fun pc (b : RawBreak) =>
          b.1 = pc.1.end_time ∧ b.2.2 = pc.1.destination_stop_id ∧
          calculate_duration_in_minutes pc.1.end_time pc.2.start_time = .ok b.2.1)
        (gapPairs evs) bs := by
  intro evs
  induction evs with
  | nil =>
    intro bs h
    simp only [implicitBreaksOf] at h
    cases h
    exact List.Forall₂.nil
  | cons p tl ih =>
    cases tl with
    | nil =>
      intro bs h
      simp only [implicitBreaksOf] at h
      cases h
      exact List.Forall₂.nil
    | cons c rest =>
      intro bs h
      simp only [implicitBreaksOf] at h
      by_cases hne : p.end_time ≠ c.start_time
      · rw [if_pos hne] at h
        cases hdur : calculate_duration_in_minutes p.end_time c.start_time with
        | error e => rw [hdur] at h; cases h
        | ok d =>
          rw [hdur] at h
          cases htl : implicitBreaksOf (c :: rest) with
          | error e => rw [htl] at h; cases h
          | ok tl2 =>
            rw [htl] at h
            cases h
            have hgp : gapPairs (p :: c :: rest) = (p, c) :: gapPairs (c :: rest) := by
              simp [gapPairs, hne]
            rw [hgp]
            exact List.Forall₂.cons ⟨rfl, rfl, hdur⟩ (ih tl2 htl)
      · rw [if_neg hne] at h
        have heq : p.end_time = c.start_time := not_not.mp hne
        have hgp : gapPairs (p :: c :: rest) = gapPairs (c :: rest) := by
          simp [gapPairs, heq]
        rw [hgp]
        exact ih bs h

/-- C3 witness: the spec's two-event examples — a 20-minute gap between
"0.10:00" and "0.10:20" yields exactly one implicit break at "0.10:00"
(displayed "10:00"), and flush end/start times yield none. -/
theorem c3_implicit_breaks_witness :
    List.Forall₂ (fun pc (b : RawBreak) =>
        b.1 = pc.1.end_time ∧ b.2.2 = pc.1.destination_stop_id ∧
        calculate_duration_in_minutes pc.1.end_time pc.2.start_time = .ok b.2.1)
      (gapPairs [gapPrevEvent, gapCurrEvent]) [("0.10:00", 20, "sB")] ∧
    List.Forall₂ (fun pc (b : RawBreak) =>
        b.1 = pc.1.end_time ∧ b.2.2 = pc.1.destination_stop_id ∧
        calculate_duration_in_minutes pc.1.end_time pc.2.start_time = .ok b.2.1)
      (gapPairs [gapPrevEvent, flushCurrEvent]) [] ∧
    day_offset_to_simple_time "0.10:00" = .ok "10:00" := by
  refine ⟨?_, ?_, by decide⟩
  · exact c3_implicit_breaks_gap_pairs [gapPrevEvent, gapCurrEvent]
      [("0.10:00", 20, "sB")] (by decide)
  · exact c3_implicit_breaks_gap_pairs [gapPrevEvent, flushCurrEvent] [] (by decide)

/-- C4: a duty event whose type is not vehicle_event answers the time query
from its own start_time/end_time field with no dereferencing; a duty event
resolving to a service-trip vehicle event answers with the referenced trip's
departure_time (start) or arrival_time (end), never the vehicle event's own
fields. -/
theorem c4_event_time_resolution (raw : RawData) (de : DutyEvent) (edge : String) :
    (de.duty_event_type ≠ "vehicle_event" →
      get_duty_event_time de raw edge =
        .ok (if pyContains "start" (pyLower edge) then de.start_time
             else de.end_time)) ∧
    (∀ (ve : VehicleEvent) (trip : Trip), de.duty_event_type = "vehicle_event" →
      get_vehicle_event_by_index raw de.vehicle_id de.vehicle_event_sequence = .ok ve →
      ve.vehicle_event_type = "service_trip" →
      getObjectById raw.trips (fun t => some (PyVal.pstr t.trip_id))
        (PyVal.pstr ve.trip_id) true "trip_id" = .ok trip →
      get_duty_event_time de raw edge =
        .ok (if pyContains "start" (pyLower edge) then trip.departure_time
             else trip.arrival_time)) := by
  constructor
  · intro h
    exact get_duty_event_time_own de raw edge h
  · intro ve trip hvt hve hst htrip
    simp only [get_duty_event_time, hve, htrip]
    rw [if_neg (by simp [hvt])]
    rw [if_neg (by simp [hst])]

/-- C4 witness: a taxi event answers from its own field; a vehicle event
referencing a service trip answers from the trip's times. -/
theorem c4_event_time_witness :
    get_duty_event_time (mkTaxi "0.05:00" "0.06:00" "s1" "s1") rawServiceTrip
      "start" = .ok "0.05:00" ∧
    get_duty_event_time (mkVehicleRef "v1" 0) rawServiceTrip "start" = .ok "0.08:30" ∧
    get_duty_event_time (mkVehicleRef "v1" 0) rawServiceTrip "end" = .ok "0.09:00" := by
  refine ⟨?_, ?_, ?_⟩
  · have h := (c4_event_time_resolution rawServiceTrip
      (mkTaxi "0.05:00" "0.06:00" "s1" "s1") "start").1 (by decide)
    have hc : pyContains "start" (pyLower "start") = true := by decide
    rw [hc] at h
    simpa using h
  · have h := (c4_event_time_resolution rawServiceTrip (mkVehicleRef "v1" 0)
      "start").2 (mkServiceTrip (PyVal.pint 0) "t1" "1")
      { trip_id := "t1", route_number := "7", departure_time := "0.08:30"
        arrival_time := "0.09:00", origin_stop_id := "s1"
        destination_stop_id := "s2" }
      (by decide) (by decide) (by decide) (by decide)
    have hc : pyContains "start" (pyLower "start") = true := by decide
    rw [hc] at h
    simpa using h
  · have h := (c4_event_time_resolution rawServiceTrip (mkVehicleRef "v1" 0)
      "end").2 (mkServiceTrip (PyVal.pint 0) "t1" "1")
      { trip_id := "t1", route_number := "7", departure_time := "0.08:30"
        arrival_time := "0.09:00", origin_stop_id := "s1"
        destination_stop_id := "s2" }
      (by decide) (by decide) (by decide) (by decide)
    have hc : pyContains "start" (pyLower "end") = false := by decide
    rw [hc] at h
    simpa using h

/-- C1 counterexample: with schema-typed (string) sequence labels stored out
of positional order, resolving index 0 raises TypeError instead of returning
the label-"0" event — the linear label search compares the integer index
against string labels (always unequal in Python), and the fall-through
binary search then orders an int against a str.  The claim's "returns the
event whose label equals i, never raising" fails on schema-conformant data. -/
theorem c1_counterexample :
    get_vehicle_event_by_index rawStrLabelsSwapped "v1" 0 = .error .typeError ∧
    ∀ ve : VehicleEvent,
      get_vehicle_event_by_index rawStrLabelsSwapped "v1" 0 ≠ .ok ve := by
  have h : get_vehicle_event_by_index rawStrLabelsSwapped "v1" 0 =
      .error .typeError := by decide
  refine ⟨h, ?_⟩
  intro ve hve
  rw [h] at hve
  exact Except.noConfusion hve

/-- C1 (amended): when the mismatched vehicle's sequence labels are integers,
the requested index is within the event array's bounds, and some event's
label equals the index, resolution returns the first event whose own label
equals the index — not the event at that array position — without raising
(only a diagnostic is logged). -/
theorem c1_label_fallback (raw : RawData) (vehicle_id : String) (idx : Int)
    (v : Vehicle) (ve0 target : VehicleEvent)
    (hv : getObjectById raw.vehicles (fun w => some (PyVal.pstr w.vehicle_id))
      (PyVal.pstr vehicle_id) true "vehicle_id" = .ok v)
    (hidx : pyIndex v.vehicle_events idx = .ok ve0)
    (hmis : ve0.vehicle_event_sequence.asPyStr ≠ toString idx)
    (hfind : v.vehicle_events.find?
        (fun e => decide (some e.vehicle_event_sequence = some (PyVal.pint idx))) =
      some target) :
    get_vehicle_event_by_index raw vehicle_id idx = .ok target := by
  simp only [get_vehicle_event_by_index, hv, hidx]
  rw [if_pos hmis]
  simp only [getObjectById, hfind]
  rfl

/-- C1 witness: integer labels stored as [1, 0]; resolving index 0 returns
the event labelled 0 (at array position 1), not the position-0 event. -/
theorem c1_label_fallback_witness :
    get_vehicle_event_by_index rawIntLabelsSwapped "v1" 0 =
      .ok (mkAttendance (PyVal.pint 0) "0.08:00" "0.09:00") := by
  exact c1_label_fallback rawIntLabelsSwapped "v1" 0
    { vehicle_id := "v1"
      vehicle_events := [mkAttendance (PyVal.pint 1) "0.10:00" "0.11:00",
                         mkAttendance (PyVal.pint 0) "0.08:00" "0.09:00"] }
    (mkAttendance (PyVal.pint 1) "0.10:00" "0.11:00")
    (mkAttendance (PyVal.pint 0) "0.08:00" "0.09:00")
    (by decide) (by decide) (by decide) (by decide)

/-- C2 counterexample: a duty whose breaks start on day 10 and day 9.  The
code sorts the start-time strings lexicographically ("10.00:00" < "9.00:00"),
so the day-10 break is listed first; the claim's chronological (minute-valued)
comparison would list the day-9 break first.  The two orderings disagree at
this input, so the claim as stated is false of the code. -/
theorem c2_counterexample :
    calculate_breaks rawMixedDays "1" 16 ["taxi"] =
      .ok [("00:00", 60, "Stop Ten"), ("00:00", 60, "Stop Nine")] ∧
    claimed_breaks_chronological rawMixedDays "1" 16 ["taxi"] =
      .ok [("00:00", 60, "Stop Nine"), ("00:00", 60, "Stop Ten")] ∧
    calculate_breaks rawMixedDays "1" 16 ["taxi"] ≠
      claimed_breaks_chronological rawMixedDays "1" 16 ["taxi"] := by
  exact ⟨by decide, by decide, by decide⟩

/-- C2 (amended): the break list is the concatenation of explicit and
implicit breaks sorted ascending by the start-time string under
lexicographic comparison (which agrees with chronological order only while
day offsets have equal digit width), stably (each start-time fiber keeps its
discovery order), with entries of duration below the threshold removed and
survivors transformed to display form. -/
theorem c2_merge_sort_filter (raw : RawData) (duty_id : String)
    (min_duration_mins : Int) (explicit_break_event_types : List String)
    (evs : List PopulatedEvent) (ex im : List RawBreak) (bs : List BreakRow)
    (hpop : populate_duty_events_with_details raw duty_id
      explicit_break_event_types = .ok evs)
    (hex : explicitBreaksOf evs = .ok ex)
    (him : implicitBreaksOf evs = .ok im)
    (hcb : calculate_breaks raw duty_id min_duration_mins
      explicit_break_event_types = .ok bs) :
    transform_raw_breaks raw min_duration_mins
        (pySortByKey (fun b => b.1) (ex ++ im)) = .ok bs ∧
    List.Perm (pySortByKey (fun b => b.1) (ex ++ im)) (ex ++ im) ∧
    (pySortByKey (fun b => b.1) (ex ++ im)).Pairwise
      (fun a b => ¬ b.1 < a.1) ∧
    (∀ s, (pySortByKey (fun b => b.1) (ex ++ im)).filter (fun b => b.1 == s) =
      (ex ++ im).filter (fun b => b.1 == s)) ∧
    (∀ b ∈ bs, min_duration_mins ≤ b.2.1) := by
  have hT : transform_raw_breaks raw min_duration_mins
      (pySortByKey (fun b => b.1) (ex ++ im)) = .ok bs := by
    simp only [calculate_breaks, hpop, hex, him] at hcb
    exact hcb
  refine ⟨hT, pySortBy_perm _ _, ?_, fun s => pySortByKey_filter _ _ s, ?_⟩
  · exact pySortByKey_pairwise (fun b => b.1) (ex ++ im)
  · exact transform_raw_breaks_min raw min_duration_mins _ bs hT

/-- C2 witness: the amended pipeline at the mixed-day dataset, with the
populated events, explicit breaks, implicit break, and output instantiated
concretely. -/
theorem c2_merge_sort_filter_witness :
    transform_raw_breaks rawMixedDays 16
        (pySortByKey (fun b => b.1)
          ([("10.00:00", 60, "s10"), ("9.00:00", 60, "s9")] ++
           [("10.01:00", -1500, "s10")])) =
      .ok [("00:00", 60, "Stop Ten"), ("00:00", 60, "Stop Nine")] ∧
    List.Perm
      (pySortByKey (fun b => b.1)
        ([("10.00:00", 60, "s10"), ("9.00:00", 60, "s9")] ++
         [("10.01:00", -1500, "s10")]))
      ([("10.00:00", 60, "s10"), ("9.00:00", 60, "s9")] ++
       [("10.01:00", -1500, "s10")]) ∧
    (pySortByKey (fun b => b.1)
        ([("10.00:00", 60, "s10"), ("9.00:00", 60, "s9")] ++
         [("10.01:00", -1500, "s10")])).Pairwise
      (fun a b => ¬ b.1 < a.1) ∧
    (∀ s, (pySortByKey (fun b => b.1)
        ([("10.00:00", 60, "s10"), ("9.00:00", 60, "s9")] ++
         [("10.01:00", -1500, "s10")])).filter (fun b => b.1 == s) =
      (([("10.00:00", 60, "s10"), ("9.00:00", 60, "s9")] ++
        [("10.01:00", -1500, "s10")]) : List RawBreak).filter
        (fun b => b.1 == s)) ∧
    (∀ b ∈ ([("00:00", 60, "Stop Ten"), ("00:00", 60, "Stop Nine")] :
        List BreakRow), (16 : Int) ≤ b.2.1) := by
  exact c2_merge_sort_filter rawMixedDays "1" 16 ["taxi"]
    [{ duty_event_type := "taxi", start_time := "10.00:00", end_time := "10.01:00"
       origin_stop_id := "s10", destination_stop_id := "s10", is_break_type := true },
     { duty_event_type := "taxi", start_time := "9.00:00", end_time := "9.01:00"
       origin_stop_id := "s9", destination_stop_id := "s9", is_break_type := true }]
    [("10.00:00", 60, "s10"), ("9.00:00", 60, "s9")]
    [("10.01:00", -1500, "s10")]
    [("00:00", 60, "Stop Ten"), ("00:00", 60, "Stop Nine")]
    (by decide) (by decide) (by decide) (by decide)

/-- The breaks-report loop aborts with the first uncaught exception from
_calculate_breaks: rows before the faulty one may succeed or be skipped on
KeyError, and the faulty duty's non-KeyError exception ends the whole loop. -/
theorem breaksLoop_aborts (raw : RawData) (mins : Int) (types : List String) :
    ∀ (pre : List Row2) (r : Row2) (rest : List Row2) (acc : List Row3)
      (e : PyErr),
      (∀ q ∈ pre, (∃ bs, calculate_breaks raw q.duty_id mins types = .ok bs) ∨
        (∃ s, calculate_breaks raw q.duty_id mins types = .error (.keyError s))) →
      calculate_breaks raw r.duty_id mins types = .error e →
      (∀ s, e ≠ .keyError s) →
      breaksLoop raw mins types (pre ++ r :: rest) acc = .error e := by
  intro pre
  induction pre with
  | nil =>
    intro r rest acc e _ he hne
    simp only [List.nil_append, breaksLoop]
    rw [he]
    cases e with
    | keyError s => exact absurd rfl (hne s)
    | indexError => rfl
    | typeError => rfl
    | valueError => rfl
    | validationError => rfl
  | cons q pre ih =>
    intro r rest acc e hpre he hne
    have hq := hpre q (List.mem_cons_self q pre)
    have hpre2 : ∀ q2 ∈ pre,
        (∃ bs, calculate_breaks raw q2.duty_id mins types = .ok bs) ∨
        (∃ s, calculate_breaks raw q2.duty_id mins types = .error (.keyError s)) := by
      intro q2 hq2
      exact hpre q2 (List.mem_cons_of_mem q hq2)
    rcases hq with ⟨bs, hbs⟩ | ⟨s, hs⟩
    · simp only [List.cons_append, breaksLoop]
      rw [hbs]
      exact ih r rest (acc ++ bs.map (breakRowOf q)) e hpre2 he hne
    · simp only [List.cons_append, breaksLoop]
      rw [hs]
      exact ih r rest acc e hpre2 he hne

/-- C6 counterexample, covering both malformed-time regimes.  Duty "1" of
rawMalformedTime holds start time "1030" (no day separator): it fails the
schema pattern, so _validate_json_data raises jsonschema.ValidationError and
generation aborts before any duty is processed — no row for the valid duty
"2" either.  Duty "1" of rawUnparseableBreak holds the schema-valid but
unparseable end time "0.99:00" (hour above 23): the breaks report aborts
with an uncaught ValueError from calculate_duration_in_minutes, again
producing no rows at all.  In neither regime is the malformed duty skipped
with the other duty's rows still produced. -/
theorem c6_counterexample :
    generate_duty_start_end_times_report rawMalformedTime =
      .error .validationError ∧
    generate_duty_start_end_times_report rawMalformedTime ≠
      .ok [{ duty_id := "2", start_time := "08:00", end_time := "09:00" }] ∧
    generate_duty_breaks_report rawUnparseableBreak 16 ["sign_on"] =
      .error .valueError ∧
    ∀ rows : List Row3,
      generate_duty_breaks_report rawUnparseableBreak 16 ["sign_on"] ≠
        .ok rows := by
  refine ⟨by decide, by decide, by decide, ?_⟩
  intro rows h
  have h3 : generate_duty_breaks_report rawUnparseableBreak 16 ["sign_on"] =
      .error .valueError := by decide
  rw [h3] at h
  exact Except.noConfusion h

/-- C6 (amended): MalformedTime never has the per-duty skip-and-continue
scope of NotFound; a time string that does not parse is dataset-wide fatal
in both regimes.  A string failing the schema pattern makes
_validate_json_data raise ValidationError, aborting report generation before
any duty processing with no output rows.  A pattern-valid time string the
time arithmetic cannot parse (hour above 23, missing ":MM", day offset above
30) surfaces as ValueError inside _calculate_breaks, which the per-duty
handler (catching only KeyError) does not catch: when the rows before the
faulty duty are well-behaved, the whole breaks report aborts. -/
theorem c6_malformed_time_aborts :
    (∀ raw : RawData, rawDataSchemaOk raw = false →
      validate_json_data raw = .error .validationError ∧
      generate_duty_start_end_times_report raw = .error .validationError) ∧
    (∀ (raw : RawData) (mins : Int) (types : List String)
       (rows2 pre rest : List Row2) (r : Row2),
      generate_duty_start_end_times_and_stops_report raw = .ok rows2 →
      rows2 = pre ++ r :: rest →
      (∀ q ∈ pre, (∃ bs, calculate_breaks (sortAllRawData raw) q.duty_id
          mins types = .ok bs) ∨
        (∃ s, calculate_breaks (sortAllRawData raw) q.duty_id mins types =
          .error (.keyError s))) →
      calculate_breaks (sortAllRawData raw) r.duty_id mins types =
        .error .valueError →
      generate_duty_breaks_report raw mins types = .error .valueError) := by
  constructor
  · intro raw hbad
    have hv : validate_json_data raw = .error .validationError := by
      simp [validate_json_data, hbad]
    refine ⟨hv, ?_⟩
    simp only [generate_duty_start_end_times_report, hv]
  · intro raw mins types rows2 pre rest r h2 hsplit hpre hr
    simp only [generate_duty_breaks_report, h2, hsplit]
    exact breaksLoop_aborts (sortAllRawData raw) mins types pre r rest []
      .valueError hpre hr (fun s h => PyErr.noConfusion h)

/-- C6 witness: the schema-invalid "1030" dataset aborts at validation; the
schema-valid "0.99:00" dataset aborts the breaks report with ValueError. -/
theorem c6_malformed_time_witness :
    (validate_json_data rawMalformedTime = .error .validationError ∧
     generate_duty_start_end_times_report rawMalformedTime =
       .error .validationError) ∧
    generate_duty_breaks_report rawUnparseableBreak 16 ["sign_on"] =
      .error .valueError := by
  constructor
  · exact c6_malformed_time_aborts.1 rawMalformedTime (by decide)
  · exact c6_malformed_time_aborts.2 rawUnparseableBreak 16 ["sign_on"]
      [{ duty_id := "1", start_time := "08:00", end_time := "99:00"
         start_stop_description := Cell.str "", end_stop_description := Cell.str "" },
       { duty_id := "2", start_time := "08:00", end_time := "09:00"
         start_stop_description := Cell.str "", end_stop_description := Cell.str "" }]
      []
      [{ duty_id := "2", start_time := "08:00", end_time := "09:00"
         start_stop_description := Cell.str "", end_stop_description := Cell.str "" }]
      { duty_id := "1", start_time := "08:00", end_time := "99:00"
        start_stop_description := Cell.str "", end_stop_description := Cell.str "" }
      (by decide) (by decide) (by simp) (by decide)

/-- C7 counterexample: duty "1" references sequence index 5 of a vehicle
with a single event — a non-existent sequence-indexed vehicle event — and
duty "2" is fully valid.  The dataset is schema-conformant (the vehicle
event's label is the string "0" and all times match the pattern), so it
passes _validate_json_data; generation then aborts with an uncaught
IndexError at vehicle_events[5] instead of yielding duty "2"'s row, so the
claim's isolation fails for this kind of dangling reference. -/
theorem c7_counterexample :
    generate_duty_start_end_times_report rawOutOfRangeIndex = .error .indexError ∧
    generate_duty_start_end_times_report rawOutOfRangeIndex ≠
      .ok [{ duty_id := "2", start_time := "08:00", end_time := "09:00" }] := by
  exact ⟨by decide, by decide⟩

/-- C7 (amended): isolation holds for references that fail inside
_get_object_by_id with KeyError — in particular a non-existent vehicle id: in
a two-duty dataset where one duty's first event names a vehicle id absent
from the vehicles collection and the other duty resolves, the report contains
exactly the valid duty's row.  (An out-of-range sequence index instead raises
an uncaught IndexError and aborts the whole run, per the counterexample.) -/
theorem c7_notfound_isolation (raw : RawData) (A B : Duty) (e0 : DutyEvent)
    (rest : List DutyEvent) (rowB : Row1)
    (hval : validate_json_data raw = .ok ())
    (hsorted : sortAllRawData raw = raw)
    (hdut : raw.duties = [A, B])
    (hev : A.duty_events = e0 :: rest)
    (hvt : e0.duty_event_type = "vehicle_event")
    (hmiss : ∀ v ∈ raw.vehicles, v.vehicle_id ≠ e0.vehicle_id)
    (hB : processDuty raw B = .ok rowB) :
    generate_duty_start_end_times_report raw = .ok [rowB] := by
  have hlook : getObjectById raw.vehicles
      (fun w => some (PyVal.pstr w.vehicle_id)) (PyVal.pstr e0.vehicle_id)
      true "vehicle_id" = .error (.keyError "vehicle_id") := by
    apply getObjectById_str_missing
    · intro o _
      exact ⟨o.vehicle_id, rfl⟩
    · intro o ho h
      simp only [Option.some.injEq, PyVal.pstr.injEq] at h
      exact hmiss o ho h
  have hgvei : get_vehicle_event_by_index raw e0.vehicle_id
      e0.vehicle_event_sequence = .error (.keyError "vehicle_id") := by
    simp only [get_vehicle_event_by_index, hlook]
  have htime : get_duty_event_time e0 raw "start" =
      .error (.keyError "vehicle_id") := by
    simp only [get_duty_event_time]
    rw [if_neg (by simp [hvt])]
    simp only [hgvei]
  have hA : processDuty raw A = .error (.keyError "vehicle_id") := by
    simp only [processDuty, hev, pyIndex_cons_zero, htime]
  simp only [generate_duty_start_end_times_report, hval, hsorted, hdut]
  simp only [reportLoop, hA, hB, List.nil_append]

/-- C7 witness: the amended theorem applied to the missing-vehicle dataset,
yielding exactly the valid duty's row. -/
theorem c7_notfound_isolation_witness :
    generate_duty_start_end_times_report rawMissingVehicle =
      .ok [{ duty_id := "2", start_time := "08:00", end_time := "09:00" }] := by
  exact c7_notfound_isolation rawMissingVehicle
    { duty_id := "1", duty_events := [mkVehicleRef "ghost" 0] }
    { duty_id := "2", duty_events := [mkSignOn "0.08:00" "0.09:00"] }
    (mkVehicleRef "ghost" 0) []
    { duty_id := "2", start_time := "08:00", end_time := "09:00" }
    (by decide) (by decide) (by decide) (by decide) (by decide)
    (by simp [rawMissingVehicle]) (by decide)

/-- C10: a duty with an empty duty_events list makes its per-duty processing
raise IndexError at `duty_events[0]`, which the per-duty handler (catching
only KeyError) does not catch, so report generation for any dataset that
passes validation and whose other duties are well-behaved aborts entirely
with IndexError. -/
theorem c10_empty_duty_aborts (raw : RawData) (pre rest : List Duty)
    (bad : Duty)
    (hval : validate_json_data raw = .ok ())
    (hsorted : sortAllRawData raw = raw)
    (hdut : raw.duties = pre ++ bad :: rest)
    (hev : bad.duty_events = [])
    (hpre : ∀ d ∈ pre, (∃ r, processDuty raw d = .ok r) ∨
      (∃ s, processDuty raw d = .error (.keyError s))) :
    processDuty raw bad = .error .indexError ∧
    generate_duty_start_end_times_report raw = .error .indexError := by
  have hbad : processDuty raw bad = .error .indexError := by
    simp only [processDuty, hev, pyIndex_nil]
  refine ⟨hbad, ?_⟩
  simp only [generate_duty_start_end_times_report, hval, hsorted, hdut]
  exact reportLoop_aborts raw pre bad rest [] .indexError hpre hbad
    (fun s h => PyErr.noConfusion h)

/-- C10 witness: the theorem applied to a dataset holding an empty duty "1"
and a valid duty "2". -/
theorem c10_empty_duty_witness :
    processDuty rawEmptyDuty { duty_id := "1", duty_events := [] } =
      .error .indexError ∧
    generate_duty_start_end_times_report rawEmptyDuty = .error .indexError := by
  exact c10_empty_duty_aborts rawEmptyDuty []
    [{ duty_id := "2", duty_events := [mkSignOn "0.08:00" "0.09:00"] }]
    { duty_id := "1", duty_events := [] }
    (by decide) (by decide) (by decide) (by decide) (by simp)

end BusReports
